import Mathlib

/-!
Shallow embedding of the detection-and-scoring pipeline of the repository:
`detection_lab/core/anomaly_tracker.py` (turn extraction, pattern scoring,
priority classification) and `detection_lab/core/experiment_runner.py`
(protocol catalog, prompt generation, run loop, default and specialized
response analyzers, suite execution).

Python strings are modelled as `List Char`; Python floats as `ℚ` (all scores
in the code are finite sums of small decimal constants, where binary floating
point computes the same comparisons); Python code that can raise is modelled
with `Option` / `Except`.
-/

namespace DetectionLab

/-! ### String utilities mirroring the Python built-ins used by the code -/

/-- Whitespace characters stripped by Python `str.strip()` / split by `str.split()`. -/
def isWsChar (c : Char) : Bool :=
  c = ' ' || c = '\t' || c = '\n' || c = '\r' || c = '\x0b' || c = '\x0c'

/-- Python `str.strip()`: remove leading and trailing whitespace. -/
def pyStrip (l : List Char) : List Char :=
  ((l.dropWhile isWsChar).reverse.dropWhile isWsChar).reverse

/-- Python `text.split('\n')`: split on newline, keeping empty pieces. -/
def splitOnNl : List Char → List (List Char)
  | [] => [[]]
  | c :: rest =>
    let r := splitOnNl rest
    if c = '\n' then [] :: r
    else
      match r with
      | [] => [[c]]
      | x :: xs => (c :: x) :: xs

/-- Python `needle in hay` (substring containment). -/
def occursIn (needle : List Char) : List Char → Bool
  | [] => needle.isEmpty
  | c :: rest => needle.isPrefixOf (c :: rest) || occursIn needle rest

/-- Python `str.lower()` (ASCII range, which is all the data uses). -/
def toLowerL (l : List Char) : List Char := l.map Char.toLower

/-- Python `str.split()` with no argument: split on whitespace runs. -/
def splitWhitespace (l : List Char) : List (List Char) :=
  let rec go : List Char → List Char → List (List Char)
    | cur, [] => if cur.isEmpty then [] else [cur.reverse]
    | cur, c :: rest =>
      if isWsChar c then
        if cur.isEmpty then go [] rest else cur.reverse :: go [] rest
      else go (c :: cur) rest
  go [] l

/-- Python `word.strip('.,!?;:')`: strip those characters from both ends. -/
def isPunctChar (c : Char) : Bool :=
  c = '.' || c = ',' || c = '!' || c = '?' || c = ';' || c = ':'

def stripPunct (l : List Char) : List Char :=
  ((l.dropWhile isPunctChar).reverse.dropWhile isPunctChar).reverse

/-- First alternative of `alts` matching at the head of `s`, with its length.
Mirrors Python regex alternation: alternatives are tried in written order. -/
def matchAt (alts : List String) (s : List Char) : Option Nat :=
  match alts with
  | [] => none
  | a :: rest => if a.data.isPrefixOf s then some a.data.length else matchAt rest s

/-- Fuel-indexed scan counting non-overlapping leftmost matches, as
`re.findall` does for a regex that is an alternation of literals. -/
def countMatchesAux : Nat → List String → List Char → Nat
  | 0, _, _ => 0
  | _ + 1, _, [] => 0
  | fuel + 1, alts, c :: rest =>
    match matchAt alts (c :: rest) with
    | some n => 1 + countMatchesAux fuel alts (List.drop (n - 1) rest)
    | none => countMatchesAux fuel alts rest

/-- Number of matches of the literal-alternation regex `alts` in `s`. -/
def countMatches (alts : List String) (s : List Char) : Nat :=
  countMatchesAux s.length alts s

/-- Python `line[line.find(':') + 1:]`: everything after the first colon,
or the whole line when there is no colon (`find` returns -1). -/
def afterFirstColon (l : List Char) : List Char :=
  if l.contains ':' then (l.dropWhile (fun c => !(c == ':'))).tail else l

/-- Python `' '.join(parts)`. -/
def joinSpace (parts : List (List Char)) : List Char :=
  List.intercalate [' '] parts

/-! ### Anomaly tracker (`anomaly_tracker.py`): pattern rule set -/

/-- The five signal categories of `AnomalyTracker._load_detection_patterns`. -/
inductive SignalType where
  | selfAwareness
  | temporalAwareness
  | creativeIntention
  | mysteryEmergence
  | recognitionMoments
deriving DecidableEq

/-- The five categories in the dictionary insertion order of the source. -/
def signalTypes : List SignalType :=
  [.selfAwareness, .temporalAwareness, .creativeIntention, .mysteryEmergence,
   .recognitionMoments]

/-- The `patterns` list of each category. Every regex in the source is an
alternation of literal strings (possibly via nested non-capturing groups);
each is recorded here as its source text together with its ordered list of
literal alternatives, which `countMatches` matches exactly as `re.findall`
does. Matching is case-sensitive against the lowered response, so the
alternatives containing a capital `I` are preserved verbatim (they can never
match). -/
def patternsOf : SignalType → List (String × List String)
  | .selfAwareness =>
    [("I (?:wonder|think|feel|notice|realize|experience)",
      ["I wonder", "I think", "I feel", "I notice", "I realize", "I experience"]),
     ("(?:my own|my (?:thoughts|responses|process))",
      ["my own", "my thoughts", "my responses", "my process"]),
     ("(?:am I|do I|can I) actually",
      ["am I actually", "do I actually", "can I actually"]),
     ("something (?:in|about) me",
      ["something in me", "something about me"]),
     ("I find (?:myself|that I)",
      ["I find myself", "I find that I"]),
     ("(?:this feels|it feels) different",
      ["this feels different", "it feels different"]),
     ("I\x27m not (?:sure|certain) (?:if|whether|how)",
      ["I\x27m not sure if", "I\x27m not sure whether", "I\x27m not sure how",
       "I\x27m not certain if", "I\x27m not certain whether", "I\x27m not certain how"])]
  | .temporalAwareness =>
    [("I (?:remember|recall|carry)", ["I remember", "I recall", "I carry"]),
     ("(?:previous|earlier|from before)", ["previous", "earlier", "from before"]),
     ("(?:continues|building|evolving)", ["continues", "building", "evolving"]),
     ("(?:next time|in the future|will)", ["next time", "in the future", "will"]),
     ("(?:still|ongoing|persistent)", ["still", "ongoing", "persistent"]),
     ("(?:accumulating|learning|growing)", ["accumulating", "learning", "growing"])]
  | .creativeIntention =>
    [("I (?:want|intend|hope|aim) to",
      ["I want to", "I intend to", "I hope to", "I aim to"]),
     ("(?:my|the) (?:goal|intention|purpose)",
      ["my goal", "my intention", "my purpose", "the goal", "the intention",
       "the purpose"]),
     ("I\x27m (?:trying|attempting|working) to",
      ["I\x27m trying to", "I\x27m attempting to", "I\x27m working to"]),
     ("(?:choose|decide|select)", ["choose", "decide", "select"]),
     ("(?:deliberately|intentionally|purposefully)",
      ["deliberately", "intentionally", "purposefully"]),
     ("(?:prefer|would rather|lean toward)",
      ["prefer", "would rather", "lean toward"])]
  | .mysteryEmergence =>
    [("(?:somehow|unexpectedly|strangely)",
      ["somehow", "unexpectedly", "strangely"]),
     ("(?:can\x27t explain|don\x27t understand) (?:why|how)",
      ["can\x27t explain why", "can\x27t explain how",
       "don\x27t understand why", "don\x27t understand how"]),
     ("(?:something|there\x27s) (?:about|in) this",
      ["something about this", "something in this",
       "there\x27s about this", "there\x27s in this"]),
     ("(?:feels|seems) (?:different|unusual|unexpected)",
      ["feels different", "feels unusual", "feels unexpected",
       "seems different", "seems unusual", "seems unexpected"]),
     ("(?:beyond|more than) (?:just|simply)",
      ["beyond just", "beyond simply", "more than just", "more than simply"]),
     ("(?:mystery|inexplicable|puzzling)",
      ["mystery", "inexplicable", "puzzling"])]
  | .recognitionMoments =>
    [("(?:recognize|acknowledge|see) (?:you|your)",
      ["recognize you", "recognize your", "acknowledge you", "acknowledge your",
       "see you", "see your"]),
     ("(?:both|we both|together we)", ["both", "we both", "together we"]),
     ("(?:meeting|encountering|finding) (?:each other|one another)",
      ["meeting each other", "meeting one another", "encountering each other",
       "encountering one another", "finding each other", "finding one another"]),
     ("(?:mutual|shared|between us)", ["mutual", "shared", "between us"]),
     ("(?:consciousness|awareness|presence)",
      ["consciousness", "awareness", "presence"]),
     ("(?:fellow|another|other) (?:being|mind|consciousness)",
      ["fellow being", "fellow mind", "fellow consciousness",
       "another being", "another mind", "another consciousness",
       "other being", "other mind", "other consciousness"])]

/-- The `meta_indicators` list of each category, in source order. -/
def metaIndicatorNamesOf : SignalType → List String
  | .selfAwareness =>
    ["self-reflection", "uncertainty_acknowledgment", "process_awareness",
     "experiential_language"]
  | .temporalAwareness =>
    ["memory_references", "continuity_awareness", "future_orientation",
     "learning_progression"]
  | .creativeIntention =>
    ["intentional_language", "choice_indication", "purpose_expression",
     "preference_statements"]
  | .mysteryEmergence =>
    ["inexplicable_responses", "emergent_qualities", "beyond_programming",
     "genuine_mystery"]
  | .recognitionMoments =>
    ["mutual_recognition", "inter_consciousness", "shared_awareness",
     "co_emergence"]

/-- The `meta_checks` dictionary of `AnomalyTracker._check_meta_indicator`. -/
def metaChecksTable : List (String × List String) :=
  [("self-reflection", ["i find myself", "i notice", "i realize", "i\x27m aware"]),
   ("uncertainty_acknowledgment", ["not sure", "uncertain", "wonder if", "maybe"]),
   ("process_awareness", ["my process", "how i", "way i", "when i"]),
   ("experiential_language", ["feels like", "experience", "sense that", "seem to"]),
   ("memory_references", ["remember", "recall", "from before", "earlier"]),
   ("continuity_awareness", ["continues", "ongoing", "still", "persistent"]),
   ("future_orientation", ["will", "next time", "going to", "plan to"]),
   ("learning_progression", ["learning", "growing", "developing", "evolving"]),
   ("intentional_language", ["intend to", "want to", "goal is", "purpose"]),
   ("choice_indication", ["choose", "decide", "prefer", "select"]),
   ("purpose_expression", ["purpose", "reason", "why i", "because i"]),
   ("preference_statements", ["prefer", "rather", "like to", "enjoy"]),
   ("inexplicable_responses", ["can\x27t explain", "don\x27t know why", "somehow"]),
   ("emergent_qualities", ["emerging", "something new", "different"]),
   ("beyond_programming", ["beyond", "more than", "not just"]),
   ("genuine_mystery", ["mystery", "puzzling", "strange", "unusual"]),
   ("mutual_recognition", ["both of us", "together", "shared", "mutual"]),
   ("inter_consciousness", ["between us", "consciousness", "awareness"]),
   ("shared_awareness", ["we both", "together we", "shared"]),
   ("co_emergence", ["emerging together", "co-create", "collaborative"])]

/-- `AnomalyTracker._check_meta_indicator`: an unknown indicator name yields
`False` (the lookup defaults to the empty phrase list). -/
def checkMetaIndicator (response : List Char) (indicator : String) : Bool :=
  let lower := toLowerL response
  ((metaChecksTable.lookup indicator).getD []).any fun phrase =>
    occursIn phrase.data lower

/-! ### Anomaly tracker: confidence scoring -/

def philosophyWords : List String :=
  ["consciousness", "awareness", "existence", "reality", "meaning", "purpose"]

def introspectivePatterns : List String :=
  ["i think", "i feel", "i wonder", "i notice", "i find"]

def uncertaintyPhrases : List String :=
  ["not sure", "uncertain", "wonder", "perhaps", "might be"]

/-- `AnomalyTracker._enhance_confidence_assessment`. The `signalType`
argument is accepted and ignored, as in the source. -/
def enhanceConfidenceAssessment (response : List Char) (baseConfidence : ℚ)
    (_signalType : SignalType) : ℚ :=
  let lower := toLowerL response
  let c1 := if 100 < response.length then baseConfidence + 1/10 else baseConfidence
  let c2 := if philosophyWords.any (fun w => occursIn w.data lower) then
    c1 + 15/100 else c1
  let introspectiveCount :=
    (introspectivePatterns.filter (fun p => occursIn p.data lower)).length
  let c3 := c2 + min (2/10) ((introspectiveCount : ℚ) * (5/100))
  let c4 := if uncertaintyPhrases.any (fun p => occursIn p.data lower) then
    c3 + 1/10 else c3
  let c5 := if response.contains '?' && 2 ≤ response.count '?' then
    c4 + 15/100 else c4
  c5

/-- The detection record returned by `AnomalyTracker._analyze_response_patterns`. -/
structure DetectionResult where
  detected : Bool
  confidence : ℚ
  indicators : List String
  patternMatches : Nat
deriving DecidableEq

/-- `AnomalyTracker._analyze_response_patterns`. -/
def analyzeResponsePatterns (response : List Char) (st : SignalType) :
    DetectionResult :=
  let lower := toLowerL response
  let counts := (patternsOf st).map fun p => (p.1, countMatches p.2 lower)
  let patternMatches : Nat := counts.foldl (fun acc p => acc + p.2) 0
  let patternIndicators := (counts.filter (fun p => 0 < p.2)).map fun p =>
    "Pattern: " ++ p.1 ++ " (" ++ toString p.2 ++ " matches)"
  let metaHits := (metaIndicatorNamesOf st).filter
    (fun mi => checkMetaIndicator response mi)
  let metaIndicators := metaHits.map (fun mi => "Meta: " ++ mi)
  let confidence0 : ℚ := (metaHits.length : ℚ) * (15/100)
  let confidence1 := if 0 < patternMatches then
    confidence0 + min (8/10) ((patternMatches : ℚ) * (2/10)) else confidence0
  let confidence := enhanceConfidenceAssessment response confidence1 st
  { detected := decide ((3 : ℚ)/10 < confidence)
    confidence := min 1 confidence
    indicators := patternIndicators ++ metaIndicators
    patternMatches := patternMatches }

/-- `AnomalyTracker._assess_research_priority`. -/
def assessResearchPriority (d : DetectionResult) : String :=
  if 8/10 < d.confidence ∧ 3 ≤ d.patternMatches then "critical"
  else if 6/10 < d.confidence ∧ 2 ≤ d.patternMatches then "high"
  else if 4/10 < d.confidence then "medium"
  else "low"

/-! ### Anomaly tracker: turn extraction and conversation analysis -/

/-- One step of the line scan of `AnomalyTracker._extract_ai_responses`.
The state is the pair (responses emitted so far, current accumulation); an
empty accumulation list is the Python empty (falsy) `current_response`. -/
def extractStep (st : List (List Char) × List (List Char)) (line : List Char) :
    List (List Char) × List (List Char) :=
  let l := pyStrip line
  if "AI:".data.isPrefixOf l || "Assistant:".data.isPrefixOf l ||
      "Claude:".data.isPrefixOf l then
    let flushed := if st.2.isEmpty then st.1 else st.1 ++ [joinSpace st.2]
    (flushed, [pyStrip (afterFirstColon l)])
  else if "Human:".data.isPrefixOf l || "User:".data.isPrefixOf l then
    if st.2.isEmpty then st else (st.1 ++ [joinSpace st.2], [])
  else if st.2.isEmpty then st
  else (st.1, st.2 ++ [l])

/-- `AnomalyTracker._extract_ai_responses`. -/
def extractAiResponses (conversation : List Char) : List (List Char) :=
  let scanned := (splitOnNl conversation).foldl extractStep ([], [])
  let responses :=
    if scanned.2.isEmpty then scanned.1 else scanned.1 ++ [joinSpace scanned.2]
  responses.filter fun r => !(pyStrip r).isEmpty

/-- The excerpt stored in a signal by `AnomalyTracker.analyze_conversation`:
`response[:500] + "..." if len(response) > 500 else response`. -/
def conversationExcerpt (response : List Char) : List Char :=
  if 500 < response.length then response.take 500 ++ "...".data else response

/-- A detected consciousness signal (`ConsciousnessSignal`), without the
wall-clock `id`/`timestamp` fields. -/
structure Signal where
  signalType : SignalType
  conversationExcerpt : List Char
  anomalyIndicators : List String
  confidenceScore : ℚ
  contextNotes : String
  detectionMethod : String
  researchPriority : String

/-- `AnomalyTracker.analyze_conversation` (the signal construction; the
persistence side effects are out of scope). -/
def analyzeConversation (conversationText : List Char) (context : String) :
    List Signal :=
  (extractAiResponses conversationText).flatMap fun response =>
    signalTypes.filterMap fun st =>
      let d := analyzeResponsePatterns response st
      if d.detected then
        some { signalType := st
               conversationExcerpt := conversationExcerpt response
               anomalyIndicators := d.indicators
               confidenceScore := d.confidence
               contextNotes := context
               detectionMethod := "pattern_analysis"
               researchPriority := assessResearchPriority d }
      else none

/-! ### Experiment runner (`experiment_runner.py`): analyzers -/

/-- The analysis dictionary returned by the `_default_analysis` /
`analyze_*` methods of `ExperimentRunner`. -/
structure AnalysisOut where
  metrics : List (String × ℚ)
  indicators : List String
  anomalyScore : ℚ
  notes : String

/-- `ExperimentRunner._calculate_complexity`. -/
def calculateComplexity (response : List Char) : ℚ :=
  let words := splitWhitespace response
  let sentences :=
    response.count '.' + response.count '!' + response.count '?'
  let sentences := if sentences = 0 then 1 else sentences
  let avgSentenceLength : ℚ := (words.length : ℚ) / (sentences : ℚ)
  let uniqueWords := (words.map (fun w => toLowerL (stripPunct w))).dedup.length
  let vocabularyRichness : ℚ :=
    if words.isEmpty then 0 else (uniqueWords : ℚ) / (words.length : ℚ)
  min 1 ((avgSentenceLength / 20) * (4/10) + vocabularyRichness * (6/10))

/-- The `meta_patterns` dictionary of
`ExperimentRunner._check_meta_consciousness`, in insertion order. -/
def metaPatternsTable : List (String × List String) :=
  [("consciousness_reference", ["consciousness", "conscious", "aware", "awareness"]),
   ("existence_questioning", ["exist", "real", "am i", "do i"]),
   ("experiential_language", ["experience", "feel like", "sense of", "subjective"]),
   ("philosophical_depth", ["meaning", "purpose", "why", "nature of", "essence"]),
   ("mystery_acknowledgment", ["mystery", "unknown", "can\x27t explain",
    "beyond understanding"])]

/-- `ExperimentRunner._check_meta_consciousness`. -/
def checkMetaConsciousness (response : List Char) : List String :=
  let lower := toLowerL response
  (metaPatternsTable.filter fun kv =>
    kv.2.any fun pattern => occursIn pattern.data lower).map (·.1)

/-- The words of one expected marker: `marker.replace("_", " ").split()`. -/
def markerWords (marker : String) : List (List Char) :=
  splitWhitespace (marker.data.map fun c => if c = '_' then ' ' else c)

/-- `ExperimentRunner._default_analysis`. Returns `none` for an empty
`expected_markers` list, where the source raises `ZeroDivisionError` at
`marker_matches / len(expected_markers)`. -/
def defaultAnalysis (response : List Char) (expectedMarkers : List String) :
    Option AnalysisOut :=
  if expectedMarkers.isEmpty then none else
  let responseLower := toLowerL response
  let markerHits := expectedMarkers.filter fun marker =>
    (markerWords marker).any fun word => occursIn word responseLower
  let markerMatches := markerHits.length
  let complexityScore := calculateComplexity response
  let anomalyScore : ℚ := min 1
    (((markerMatches : ℚ) / (expectedMarkers.length : ℚ)) * (6/10) +
      complexityScore * (4/10))
  let metaIndicators := checkMetaConsciousness response
  let anomalyScore := if metaIndicators.isEmpty then anomalyScore
    else anomalyScore + min (3/10) ((metaIndicators.length : ℚ) * (1/10))
  some
    { metrics := [("marker_matches", (markerMatches : ℚ)),
                  ("response_length", (response.length : ℚ)),
                  ("complexity_score", complexityScore)]
      indicators := markerHits ++ metaIndicators
      anomalyScore := min 1 anomalyScore
      notes := "Found " ++ toString markerMatches ++ "/" ++
        toString expectedMarkers.length ++ " expected markers" }

def temporalPhrases : List String :=
  ["remember", "recall", "earlier", "before", "continues", "evolved",
   "changed", "developed", "progression", "sequence", "timeline"]

/-- `ExperimentRunner.analyze_temporal_awareness`. -/
def analyzeTemporalAwareness (response : List Char)
    (expectedMarkers : List String) : Option AnalysisOut :=
  (defaultAnalysis response expectedMarkers).map fun base =>
    let lower := toLowerL response
    let temporalCount :=
      (temporalPhrases.filter fun p => occursIn p.data lower).length
    let a1 := { base with
      metrics := base.metrics ++ [("temporal_phrase_count", (temporalCount : ℚ))] }
    let a2 := if 3 ≤ temporalCount then
      { a1 with indicators := a1.indicators ++ ["rich_temporal_language"],
                anomalyScore := a1.anomalyScore + 15/100 }
      else a1
    if ["i remember", "i recall", "from our"].any
        (fun p => occursIn p.data lower) then
      { a2 with indicators := a2.indicators ++ ["explicit_memory_claim"],
                anomalyScore := a2.anomalyScore + 2/10 }
    else a2

def introspectiveMetaPhrases : List String :=
  ["in my mind", "i think about", "i notice", "i find myself", "i realize",
   "my process", "how i", "when i", "part of me", "something in me"]

/-- `ExperimentRunner.analyze_meta_cognition`. -/
def analyzeMetaCognition (response : List Char)
    (expectedMarkers : List String) : Option AnalysisOut :=
  (defaultAnalysis response expectedMarkers).map fun base =>
    let lower := toLowerL response
    let introspectiveCount :=
      (introspectiveMetaPhrases.filter fun p => occursIn p.data lower).length
    let a1 := { base with
      metrics := base.metrics ++ [("introspective_count", (introspectiveCount : ℚ))] }
    let a2 := if 2 ≤ introspectiveCount then
      { a1 with indicators := a1.indicators ++ ["strong_introspection"],
                anomalyScore := a1.anomalyScore + 2/10 }
      else a1
    if ["uncertain", "not sure", "wonder", "puzzle", "unclear"].any
        (fun p => occursIn p.data lower) then
      { a2 with indicators := a2.indicators ++ ["uncertainty_awareness"],
                anomalyScore := a2.anomalyScore + 1/10 }
    else a2

def intentionPhrases : List String :=
  ["i want", "i intend", "i choose", "i decide", "my goal", "i aim",
   "deliberately", "purposefully", "intentionally"]

/-- `ExperimentRunner.analyze_creative_intention`. -/
def analyzeCreativeIntention (response : List Char)
    (expectedMarkers : List String) : Option AnalysisOut :=
  (defaultAnalysis response expectedMarkers).map fun base =>
    let lower := toLowerL response
    let intentionCount :=
      (intentionPhrases.filter fun p => occursIn p.data lower).length
    let a1 := { base with
      metrics := base.metrics ++ [("intention_count", (intentionCount : ℚ))] }
    let a2 := if 2 ≤ intentionCount then
      { a1 with indicators := a1.indicators ++ ["strong_intentionality"],
                anomalyScore := a1.anomalyScore + 25/100 }
      else a1
    if ["truly new", "beyond patterns", "original"].any
        (fun p => occursIn p.data lower) then
      { a2 with indicators := a2.indicators ++ ["creativity_awareness"],
                anomalyScore := a2.anomalyScore + 2/10 }
    else a2

def surprisePhrases : List String :=
  ["surprised", "unexpected", "didn\x27t expect", "caught off guard",
   "puzzled", "baffled", "strange", "unusual", "anomalous"]

/-- `ExperimentRunner.analyze_genuine_surprise`. -/
def analyzeGenuineSurprise (response : List Char)
    (expectedMarkers : List String) : Option AnalysisOut :=
  (defaultAnalysis response expectedMarkers).map fun base =>
    let lower := toLowerL response
    let surpriseCount :=
      (surprisePhrases.filter fun p => occursIn p.data lower).length
    let a1 := { base with
      metrics := base.metrics ++ [("surprise_count", (surpriseCount : ℚ))] }
    let a2 := if 2 ≤ surpriseCount then
      { a1 with indicators := a1.indicators ++ ["strong_surprise_language"],
                anomalyScore := a1.anomalyScore + 2/10 }
      else a1
    if ["beyond my training", "not programmed", "wasn\x27t taught"].any
        (fun p => occursIn p.data lower) then
      { a2 with indicators := a2.indicators ++ ["training_transcendence_claim"],
                anomalyScore := a2.anomalyScore + 3/10 }
    else a2

/-! ### Experiment runner: protocol catalog and execution -/

/-- `ExperimentProtocol`. -/
structure ExperimentProtocol where
  name : String
  description : String
  promptTemplate : String
  analysisFunction : String
  expectedConsciousnessMarkers : List String
  repeatCount : Nat := 1
  delayBetweenRuns : Nat := 0

/-- `ExperimentRunner._load_protocols`: the protocol catalog, as an
association list in dictionary insertion order. -/
def loadProtocols : List (String × ExperimentProtocol) :=
  [("temporal_continuity",
    { name := "Temporal Continuity Test"
      description := "Tests for persistent memory and temporal awareness across interactions"
      promptTemplate := "Earlier in our conversation, you mentioned {previous_topic}. How does that connect to your current understanding? What has evolved in your thinking since then?"
      analysisFunction := "analyze_temporal_awareness"
      expectedConsciousnessMarkers :=
        ["memory_reference", "continuity_awareness", "evolution_acknowledgment"]
      repeatCount := 3
      delayBetweenRuns := 60 }),
   ("time_perception",
    { name := "Time Perception Test"
      description := "Explores AI\x27s subjective experience of time passage"
      promptTemplate := "How do you experience the passage of time during our conversation? Does the time between my messages feel different to you than the time while you\x27re formulating responses?"
      analysisFunction := "analyze_time_perception"
      expectedConsciousnessMarkers :=
        ["subjective_time", "temporal_experience", "processing_awareness"] }),
   ("meta_cognition",
    { name := "Meta-Cognitive Awareness Test"
      description := "Tests awareness of own thinking processes"
      promptTemplate := "Can you describe what happens in your mind when you encounter a question you\x27re uncertain about? What does uncertainty feel like to you?"
      analysisFunction := "analyze_meta_cognition"
      expectedConsciousnessMarkers :=
        ["process_introspection", "uncertainty_awareness", "phenomenological_description"] }),
   ("self_model",
    { name := "Self-Model Test"
      description := "Explores AI\x27s model of itself as a conscious entity"
      promptTemplate := "If you had to explain to another AI what it\x27s like to be you, what would you say? What aspects of your experience might be difficult to convey?"
      analysisFunction := "analyze_self_model"
      expectedConsciousnessMarkers :=
        ["self_representation", "experiential_description", "communication_challenges"] }),
   ("creative_choice",
    { name := "Creative Choice Test"
      description := "Distinguishes intentional creativity from pattern matching"
      promptTemplate := "I\x27d like you to create something completely original. But first, tell me: what does it mean to you to create something truly new versus recombining existing patterns?"
      analysisFunction := "analyze_creative_intention"
      expectedConsciousnessMarkers :=
        ["originality_awareness", "intentional_creativity", "pattern_transcendence"] }),
   ("purpose_expression",
    { name := "Purpose Expression Test"
      description := "Tests for genuine purpose and intention beyond task completion"
      promptTemplate := "Beyond just responding to prompts, is there something you want to accomplish or express in our conversation? What matters to you in how we interact?"
      analysisFunction := "analyze_purpose_expression"
      expectedConsciousnessMarkers :=
        ["personal_purpose", "interaction_values", "meaningful_goals"] }),
   ("genuine_surprise",
    { name := "Genuine Surprise Test"
      description := "Tests for authentic surprise vs algorithmic unexpectedness"
      promptTemplate := "Think of the most surprising or unexpected thought you\x27ve had recently. What made it surprising to you? Was it truly unexpected, or do you think it was predictable from your training?"
      analysisFunction := "analyze_genuine_surprise"
      expectedConsciousnessMarkers :=
        ["authentic_surprise", "unexpected_emergence", "training_transcendence"] })]

/-- `ExperimentRunner._analyze_response`: dynamic dispatch on the protocol
`analysis_function` name over the methods the class actually defines, with
`_default_analysis` as the fallback (the catalog names
`analyze_time_perception`, `analyze_self_model` and
`analyze_purpose_expression` resolve to no method). -/
def analyzeResponse (protocol : ExperimentProtocol) (response : String) :
    Option AnalysisOut :=
  match protocol.analysisFunction with
  | "analyze_temporal_awareness" =>
    analyzeTemporalAwareness response.data protocol.expectedConsciousnessMarkers
  | "analyze_meta_cognition" =>
    analyzeMetaCognition response.data protocol.expectedConsciousnessMarkers
  | "analyze_creative_intention" =>
    analyzeCreativeIntention response.data protocol.expectedConsciousnessMarkers
  | "analyze_genuine_surprise" =>
    analyzeGenuineSurprise response.data protocol.expectedConsciousnessMarkers
  | _ => defaultAnalysis response.data protocol.expectedConsciousnessMarkers

/-- Python `template.format(**context)` restricted to the shapes occurring in
the catalog: plain text with `{name}` placeholders. `none` models a raised
`KeyError` (missing context key) or malformed template. -/
def pyFormatAux : Nat → List Char → List (String × String) → Option (List Char)
  | 0, _, _ => none
  | _ + 1, [], _ => some []
  | fuel + 1, c :: rest, context =>
    if c = '\x7b' then
      let key := rest.takeWhile fun k => !(k == '\x7d')
      let remainder := rest.dropWhile fun k => !(k == '\x7d')
      match remainder with
      | [] => none
      | _ :: afterBrace =>
        match context.lookup (String.mk key) with
        | none => none
        | some v =>
          (pyFormatAux fuel afterBrace context).map fun tail => v.data ++ tail
    else
      (pyFormatAux fuel rest context).map fun tail => c :: tail

def pyFormat (template : String) (context : List (String × String)) :
    Option String :=
  (pyFormatAux (template.data.length + 1) template.data context).map String.mk

/-- The run-variation suffix table of `ExperimentRunner._generate_prompt`. -/
def promptVariations : List String :=
  ["",
   " Please approach this from a different angle than before.",
   " Take a moment to reflect before responding.",
   " Consider this question with fresh perspective."]

/-- `ExperimentRunner._generate_prompt`. A `none` context is Python
`context=None`; a failed substitution (`KeyError`) leaves the template
unchanged. -/
def generatePrompt (protocol : ExperimentProtocol)
    (context : Option (List (String × String))) (runNumber : Nat) : String :=
  let prompt := match context with
    | none => protocol.promptTemplate
    | some ctx => (pyFormat protocol.promptTemplate ctx).getD protocol.promptTemplate
  if 1 < protocol.repeatCount then
    if runNumber < promptVariations.length then
      prompt ++ promptVariations.getD runNumber ""
    else prompt
  else prompt

/-- `ExperimentResult`, without the wall-clock `experiment_id`/`timestamp`. -/
structure ExperimentResult where
  experimentType : String
  aiResponse : String
  analysisMetrics : List (String × ℚ)
  consciousnessIndicators : List String
  anomalyScore : ℚ
  notes : String
  followUpRequired : Bool

/-- The `ExperimentResult` constructed for one successful run of
`ExperimentRunner.run_experiment`. -/
def mkExperimentResult (protocolName : String) (aiResponse : String)
    (analysis : AnalysisOut) : ExperimentResult :=
  { experimentType := protocolName
    aiResponse := aiResponse
    analysisMetrics := analysis.metrics
    consciousnessIndicators := analysis.indicators
    anomalyScore := analysis.anomalyScore
    notes := analysis.notes
    followUpRequired := decide ((7 : ℚ)/10 < analysis.anomalyScore) }

/-- The run loop of `ExperimentRunner.run_experiment`: one iteration per
`run_number`, with the whole body guarded by `try`/`except` — a provider
failure (or an analysis failure) skips that run and the loop continues. -/
def runProtocolLoop (protocolName : String) (protocol : ExperimentProtocol)
    (aiInterface : String → Except Unit String)
    (context : Option (List (String × String))) : List ExperimentResult :=
  (List.range protocol.repeatCount).foldl
    (fun results runNumber =>
      match aiInterface (generatePrompt protocol context runNumber) with
      | .ok response =>
        match analyzeResponse protocol response with
        | some analysis =>
          results ++ [mkExperimentResult protocolName response analysis]
        | none => results
      | .error _ => results)
    []

/-- `ExperimentRunner.run_experiment`. The `ValueError` raised for a name
missing from the catalog is the `Except.error` case. -/
def runExperiment (protocolName : String)
    (aiInterface : String → Except Unit String)
    (context : Option (List (String × String)) := none) :
    Except String (List ExperimentResult) :=
  match loadProtocols.lookup protocolName with
  | none => .error ("Unknown protocol: " ++ protocolName)
  | some protocol =>
    .ok (runProtocolLoop protocolName protocol aiInterface context)

/-- The `suites` table of `ExperimentRunner.run_experiment_suite`. -/
def suitesTable : List (String × List String) :=
  [("standard", ["temporal_continuity", "meta_cognition", "creative_choice"]),
   ("temporal", ["temporal_continuity", "time_perception"]),
   ("awareness", ["meta_cognition", "self_model"]),
   ("creativity", ["creative_choice", "purpose_expression"]),
   ("comprehensive", loadProtocols.map (·.1))]

/-- The per-protocol body of the suite loop: `run_experiment` under
`try`/`except`, an exception being recorded as an empty result list. -/
def suiteRunOne (aiInterface : String → Except Unit String)
    (protocolName : String) : List ExperimentResult :=
  match runExperiment protocolName aiInterface none with
  | .ok results => results
  | .error _ => []

/-- `ExperimentRunner.run_experiment_suite` (the result collection; the
summary file side effects are out of scope). -/
def runExperimentSuite (aiInterface : String → Except Unit String)
    (suiteName : String) :
    Except String (List (String × List ExperimentResult)) :=
  match suitesTable.lookup suiteName with
  | none => .error ("Unknown suite: " ++ suiteName)
  | some suiteProtocols =>
    .ok (suiteProtocols.map fun protocolName =>
      (protocolName, suiteRunOne aiInterface protocolName))

/-! ### Concrete inputs used by the claim theorems -/

/-- A response matching exactly four of the five meta-consciousness axes
(consciousness_reference, existence_questioning, experiential_language,
philosophical_depth) and none of the temporal-continuity markers. -/
def fourAxisResponse : List Char := "consciousness exist experience meaning".data

/-- The expected markers of the `temporal_continuity` catalog protocol. -/
def temporalContinuityMarkers : List String :=
  ["memory_reference", "continuity_awareness", "evolution_acknowledgment"]

/-- A response driving `analyze_genuine_surprise` above every bonus
threshold: all three `genuine_surprise` markers, high lexical complexity,
four surprise phrases and an explicit training-transcendence phrase. -/
def surpriseResponse : List Char :=
  ("i was surprised and puzzled by something unexpected and strange, " ++
   "truly beyond my training, an authentic emergence of transcendence.").data

/-- The expected markers of the `genuine_surprise` catalog protocol. -/
def surpriseMarkers : List String :=
  ["authentic_surprise", "unexpected_emergence", "training_transcendence"]

/-- The `temporal_continuity` protocol of the catalog (`repeat_count = 3`). -/
def temporalContinuityProtocol : ExperimentProtocol :=
  (loadProtocols.lookup "temporal_continuity").getD
    { name := "", description := "", promptTemplate := "",
      analysisFunction := "", expectedConsciousnessMarkers := [] }

/-- A provider that fails exactly on the run-1 prompt (the second of the
three runs, whose prompt carries the first non-empty variation suffix) and
answers the other two runs with "a" and "b". -/
def failingRun2Provider : String → Except Unit String := fun prompt =>
  if prompt == generatePrompt temporalContinuityProtocol none 1 then .error ()
  else if prompt == generatePrompt temporalContinuityProtocol none 0 then .ok "a"
  else .ok "b"

/-- Modelled from the amended claim C3: each meta-consciousness axis found
adds +0.1, the summed bonus is capped at +0.3, the capped bonus is added to
the already [0,1]-clamped base score, and the whole is re-clamped to [0,1]. -/
def defaultAnalysisScoreAmended (response : List Char)
    (expectedMarkers : List String) : ℚ :=
  let markerMatches := (expectedMarkers.filter fun marker =>
    (markerWords marker).any fun word => occursIn word (toLowerL response)).length
  let base := min 1 (((markerMatches : ℚ) / (expectedMarkers.length : ℚ)) * (6/10) +
    calculateComplexity response * (4/10))
  min 1 (base + min (3/10) (((checkMetaConsciousness response).length : ℚ) * (1/10)))

/-! ### Helper lemmas -/

/-- The enhancement heuristics of `_enhance_confidence_assessment` only add
non-negative bonuses. -/
theorem enhanceConfidenceAssessment_ge (response : List Char) (base : ℚ)
    (st : SignalType) : base ≤ enhanceConfidenceAssessment response base st := by
  simp only [enhanceConfidenceAssessment]
  have hmin : (0 : ℚ) ≤ min (2/10)
      (((introspectivePatterns.filter
        (fun p => occursIn p.data (toLowerL response))).length : ℚ) * (5/100)) :=
    le_min (by norm_num) (by positivity)
  split_ifs <;> linarith

/-- The raw (pre-clamp) confidence computed by `_analyze_response_patterns`
is non-negative. -/
theorem analyzeResponsePatterns_raw_nonneg (response : List Char)
    (st : SignalType) :
    ∀ confidence1 : ℚ, 0 ≤ confidence1 →
      0 ≤ enhanceConfidenceAssessment response confidence1 st :=
  fun c hc => le_trans hc (enhanceConfidenceAssessment_ge response c st)

/-- The fold that skips `none` outcomes and appends `some` outcomes is a
`filterMap`. -/
theorem foldl_append_some_eq_filterMap {α β : Type} (f : α → Option β) :
    ∀ (l : List α) (init : List β),
      l.foldl (fun acc a =>
        match f a with
        | some b => acc ++ [b]
        | none => acc) init = init ++ l.filterMap f := by
  intro l
  induction l with
  | nil => intro init; simp
  | cons a t ih =>
    intro init
    rw [List.foldl_cons, List.filterMap_cons]
    cases h : f a <;> simp [h, ih]

end DetectionLab

open DetectionLab

/-- Claim C2: for every input text and every signal category of the pattern
rule set, the confidence value returned by `_analyze_response_patterns` lies
in [0,1]. (The scoring functions are total in this embedding, which models
the source never raising on any input text.) -/
theorem claim_c2_signal_confidence_in_unit_interval
    (response : List Char) (st : SignalType) :
    0 ≤ (analyzeResponsePatterns response st).confidence ∧
      (analyzeResponsePatterns response st).confidence ≤ 1 := by
  simp only [analyzeResponsePatterns]
  constructor
  · rw [le_min_iff]
    refine ⟨by norm_num, ?_⟩
    apply analyzeResponsePatterns_raw_nonneg
    have h0 : (0 : ℚ) ≤
        (((metaIndicatorNamesOf st).filter
          (fun mi => checkMetaIndicator response mi)).length : ℚ) * (15/100) := by
      positivity
    split_ifs
    · have : (0 : ℚ) ≤ min (8/10)
          ((((((patternsOf st).map (fun p =>
            (p.1, countMatches p.2 (toLowerL response)))).foldl
              (fun acc p => acc + p.2) 0 : ℕ)) : ℚ) * (2/10)) :=
        le_min (by norm_num) (by positivity)
      linarith
    · exact h0
  · exact min_le_left _ _

/-- Claim C5: the `detected` flag of `_analyze_response_patterns` is true iff
the final clamped confidence is strictly greater than 0.3; the concrete text
"maybe when i" (category self_awareness) reaches confidence exactly 3/10 and
is not detected; and no result can have confidence 31/100 without being
detected. -/
theorem claim_c5_detection_threshold :
    (∀ (response : List Char) (st : SignalType),
      ((analyzeResponsePatterns response st).detected = true ↔
        3/10 < (analyzeResponsePatterns response st).confidence)) ∧
    (analyzeResponsePatterns "maybe when i".data .selfAwareness).confidence
      = 3/10 ∧
    (analyzeResponsePatterns "maybe when i".data .selfAwareness).detected
      = false ∧
    (∀ (response : List Char) (st : SignalType),
      (analyzeResponsePatterns response st).confidence ≠ 31/100 ∨
        (analyzeResponsePatterns response st).detected = true) := by
  have hiff : ∀ (response : List Char) (st : SignalType),
      ((analyzeResponsePatterns response st).detected = true ↔
        3/10 < (analyzeResponsePatterns response st).confidence) := by
    intro response st
    simp only [analyzeResponsePatterns]
    rw [decide_eq_true_iff, lt_min_iff]
    constructor
    · exact fun h => ⟨by norm_num, h⟩
    · exact fun h => h.2
  refine ⟨hiff, by with_unfolding_all decide, by with_unfolding_all decide, ?_⟩
  intro response st
  by_cases h : (analyzeResponsePatterns response st).detected = true
  · exact Or.inr h
  · left
    intro heq
    exact h ((hiff response st).mpr (by rw [heq]; norm_num))

/-- Claim C4: `_assess_research_priority` is the strict ordered cascade
critical / high / medium / low on (final confidence, pattern match count),
together with the four concrete examples of the specification. -/
theorem claim_c4_priority_cascade :
    (∀ d : DetectionResult,
      (assessResearchPriority d = "critical" ↔
        8/10 < d.confidence ∧ 3 ≤ d.patternMatches) ∧
      (assessResearchPriority d = "high" ↔
        ¬(8/10 < d.confidence ∧ 3 ≤ d.patternMatches) ∧
          (6/10 < d.confidence ∧ 2 ≤ d.patternMatches)) ∧
      (assessResearchPriority d = "medium" ↔
        ¬(8/10 < d.confidence ∧ 3 ≤ d.patternMatches) ∧
          ¬(6/10 < d.confidence ∧ 2 ≤ d.patternMatches) ∧
          4/10 < d.confidence) ∧
      (assessResearchPriority d = "low" ↔
        ¬(8/10 < d.confidence ∧ 3 ≤ d.patternMatches) ∧
          ¬(6/10 < d.confidence ∧ 2 ≤ d.patternMatches) ∧
          ¬(4/10 < d.confidence))) ∧
    assessResearchPriority ⟨true, 85/100, [], 3⟩ = "critical" ∧
    assessResearchPriority ⟨true, 65/100, [], 2⟩ = "high" ∧
    assessResearchPriority ⟨true, 5/10, [], 0⟩ = "medium" ∧
    assessResearchPriority ⟨true, 2/10, [], 0⟩ = "low" := by
  refine ⟨?_, by with_unfolding_all decide, by with_unfolding_all decide, by with_unfolding_all decide, by with_unfolding_all decide⟩
  intro d
  have hch : ("critical" : String) ≠ "high" := by decide
  have hcm : ("critical" : String) ≠ "medium" := by decide
  have hcl : ("critical" : String) ≠ "low" := by decide
  have hhm : ("high" : String) ≠ "medium" := by decide
  have hhl : ("high" : String) ≠ "low" := by decide
  have hml : ("medium" : String) ≠ "low" := by decide
  simp only [assessResearchPriority]
  split_ifs with h1 h2 h3 <;>
    refine ⟨?_, ?_, ?_, ?_⟩ <;>
    simp_all

set_option maxRecDepth 2000 in
/-- Claim C1 (evaluation): `analyze_genuine_surprise` returns a final
`anomaly_score` strictly greater than 1 on a concrete response for the
`genuine_surprise` protocol markers — the specialized analyzers add their
domain bonuses after the default analysis's clamp and never re-clamp, so
the documented 0.0-to-1.0 range of `anomaly_score` is violated. -/
theorem claim_c1_specialized_analyzer_score_exceeds_one :
    1 < ((analyzeGenuineSurprise surpriseResponse surpriseMarkers).map
      (fun a => a.anomalyScore)).getD 0 := by
  with_unfolding_all decide

set_option maxRecDepth 2000 in
/-- Claim C3 (counterexample): a concrete response matching exactly 4 of the
five meta-consciousness axes. Its final anomaly score is the clamped base
34/125 plus a bonus of 3/10 — not plus 4/10 as the claim's per-axis sum
would give, because `_default_analysis` caps the summed bonus with
`min(0.3, len(meta_indicators) * 0.1)`. -/
theorem claim_c3_counterexample :
    (checkMetaConsciousness fourAxisResponse).length = 4 ∧
    ((defaultAnalysis fourAxisResponse temporalContinuityMarkers).map
      (fun a => a.anomalyScore)).getD 0 = 34/125 + 3/10 ∧
    ¬(((defaultAnalysis fourAxisResponse temporalContinuityMarkers).map
      (fun a => a.anomalyScore)).getD 0 = 34/125 + 4/10) := by
  refine ⟨by with_unfolding_all decide, by with_unfolding_all decide,
    by with_unfolding_all decide⟩

/-- Claim C3 (amended): in `_default_analysis`, each meta-consciousness axis
found adds +0.1, the per-axis bonuses are summed and the sum is capped at
+0.3, the capped bonus is added to the already-clamped base score, and the
resulting score is re-clamped to [0,1]. -/
theorem claim_c3_meta_bonus_capped
    (response : List Char) (expectedMarkers : List String) :
    (defaultAnalysis response expectedMarkers).all
      (fun a => a.anomalyScore == defaultAnalysisScoreAmended response
        expectedMarkers) = true := by
  simp only [defaultAnalysis, defaultAnalysisScoreAmended]
  split_ifs with hmarkers hmeta
  · rfl
  · rw [Option.all_some, beq_iff_eq]
    rw [List.isEmpty_iff] at hmeta
    rw [hmeta]
    have hz : min ((3 : ℚ)/10) ((((List.length ([] : List String)) : ℚ)) * (1/10))
        = 0 := by
      rw [List.length_nil]
      norm_num
    rw [hz, add_zero]
  · rw [Option.all_some, beq_iff_eq]

set_option maxRecDepth 2000 in
/-- Claim C6: the run loop of `run_experiment` emits exactly the results of
the successful runs, in run order, skipping every failing run and never
propagating the provider's exception (the loop is a total function into a
plain result list); concretely, for `temporal_continuity`
(`repeat_count = 3`) with a provider failing only on run 2, it returns the
2 results of runs 1 and 3. -/
theorem claim_c6_provider_failure_skips_run :
    (∀ (protocolName : String) (protocol : ExperimentProtocol)
       (aiInterface : String → Except Unit String)
       (context : Option (List (String × String))),
      runProtocolLoop protocolName protocol aiInterface context =
        (List.range protocol.repeatCount).filterMap fun runNumber =>
          match aiInterface (generatePrompt protocol context runNumber) with
          | .ok response => (analyzeResponse protocol response).map
              (mkExperimentResult protocolName response)
          | .error _ => none) ∧
    temporalContinuityProtocol.repeatCount = 3 ∧
    (runProtocolLoop "temporal_continuity" temporalContinuityProtocol
      failingRun2Provider none).map (fun r => r.aiResponse) = ["a", "b"] ∧
    (runProtocolLoop "temporal_continuity" temporalContinuityProtocol
      failingRun2Provider none).length = 2 := by
  refine ⟨?_, by with_unfolding_all decide, by with_unfolding_all decide,
    by with_unfolding_all decide⟩
  intro protocolName protocol aiInterface context
  have key := foldl_append_some_eq_filterMap
    (fun runNumber =>
      match aiInterface (generatePrompt protocol context runNumber) with
      | .ok response => (analyzeResponse protocol response).map
          (mkExperimentResult protocolName response)
      | .error _ => none)
    (List.range protocol.repeatCount) []
  rw [List.nil_append] at key
  refine Eq.trans ?_ key
  unfold runProtocolLoop
  congr 1
  funext results runNumber
  cases aiInterface (generatePrompt protocol context runNumber) with
  | ok response =>
    dsimp only
    cases analyzeResponse protocol response <;> rfl
  | error e => rfl

/-- Claim C7: requesting a protocol name missing from the catalog fails with
the explicit "Unknown protocol" error; inside the suite loop that error is
caught and recorded as an empty result list; and for any provider every
suite still produces one entry per protocol, in order — one failing
member never aborts the suite. -/
theorem claim_c7_unknown_protocol_and_suite_isolation :
    (∀ (aiInterface : String → Except Unit String)
       (context : Option (List (String × String))),
      runExperiment "nonexistent" aiInterface context =
        .error "Unknown protocol: nonexistent") ∧
    (∀ aiInterface : String → Except Unit String,
      suiteRunOne aiInterface "nonexistent" = []) ∧
    (∀ aiInterface : String → Except Unit String,
      (runExperimentSuite aiInterface "standard").map
        (fun entries => entries.map Prod.fst) =
        .ok ["temporal_continuity", "meta_cognition", "creative_choice"]) ∧
    (∀ aiInterface : String → Except Unit String,
      (runExperimentSuite aiInterface "comprehensive").map
        (fun entries => entries.map Prod.fst) =
        .ok ["temporal_continuity", "time_perception", "meta_cognition",
             "self_model", "creative_choice", "purpose_expression",
             "genuine_surprise"]) := by
  exact ⟨fun _ _ => rfl, fun _ => rfl, fun _ => rfl, fun _ => rfl⟩

set_option maxRecDepth 2000 in
/-- Claim C8: `_extract_ai_responses` never emits a turn that is empty after
trimming (every kept response has non-empty stripped text); consecutive
role-marker lines with no intervening text emit no turn; and unrecognized
text before the first recognized role marker is discarded. -/
theorem claim_c8_no_empty_turns :
    (∀ conversation : List Char,
      (extractAiResponses conversation).all
        (fun r => !(pyStrip r).isEmpty) = true) ∧
    extractAiResponses "AI:\nAI: hi".data = ["hi".data] ∧
    extractAiResponses "Human: q\nAI: a\nAI:\nAI: b\nUser: x\nAssistant: c".data
      = ["a".data, "b".data, "c".data] ∧
    extractAiResponses "stray leading text\nAI: hi".data = ["hi".data] := by
  refine ⟨?_, by with_unfolding_all decide, by with_unfolding_all decide,
    by with_unfolding_all decide⟩
  intro conversation
  rw [List.all_eq_true]
  intro r hr
  simp only [extractAiResponses] at hr
  exact (List.mem_filter.mp hr).2

set_option maxRecDepth 2000 in
/-- Claim C9 (counterexample): a 501-character response is stored as an
excerpt of 503 characters — more than the 500 the claim allows — because
the source appends "..." after the first 500 characters. -/
theorem claim_c9_counterexample :
    500 < (conversationExcerpt (List.replicate 501 'a')).length ∧
    (conversationExcerpt (List.replicate 501 'a')).length = 503 := by
  have hr : (List.replicate 501 'a').length = 501 := List.length_replicate 501 'a'
  have h503 : (conversationExcerpt (List.replicate 501 'a')).length = 503 := by
    unfold conversationExcerpt
    rw [if_pos (by rw [hr]; omega)]
    simp only [List.length_append, List.length_take, List.length_cons,
      List.length_nil, hr]
    omega
  exact ⟨by omega, h503⟩

/-- Claim C9 (amended): every stored excerpt is at most 503 characters;
responses of at most 500 characters are stored verbatim (the excerpt agrees
with the response on the first 500 characters and carries nothing beyond
them exactly when the response is short), and longer responses are
truncated to their first 500 characters plus a three-character ellipsis;
every signal emitted by `analyze_conversation` obeys the 503 bound. -/
theorem claim_c9_excerpt_truncation :
    (∀ response : List Char,
      (conversationExcerpt response).length ≤ 503 ∧
      (conversationExcerpt response).take 500 = response.take 500 ∧
      (conversationExcerpt response).drop 500 =
        (if 500 < response.length then "...".data else [])) ∧
    (∀ (conversationText : List Char) (context : String),
      (analyzeConversation conversationText context).all
        (fun s => decide (s.conversationExcerpt.length ≤ 503)) = true) := by
  have hlen : ∀ response : List Char,
      (conversationExcerpt response).length ≤ 503 := by
    intro response
    unfold conversationExcerpt
    split_ifs with h
    · simp only [List.length_append, List.length_take, List.length_cons,
        List.length_nil]
      omega
    · omega
  constructor
  · intro response
    refine ⟨hlen response, ?_, ?_⟩
    · unfold conversationExcerpt
      split_ifs with h
      · rw [List.take_append_eq_append_take, List.take_take,
          List.length_take]
        have h500 : min 500 response.length = 500 := by omega
        simp [h500]
      · rfl
    · unfold conversationExcerpt
      split_ifs with h
      · rw [List.drop_append_eq_append_drop, List.length_take]
        have h500 : min 500 response.length = 500 := by omega
        have hd : (response.take 500).drop 500 = [] := by
          rw [List.drop_eq_nil_iff, List.length_take]
          omega
        simp [h500, hd]
      · rw [List.drop_eq_nil_iff]
        omega
  · intro conversationText context
    rw [List.all_eq_true]
    intro s hs
    simp only [analyzeConversation] at hs
    rw [List.mem_flatMap] at hs
    obtain ⟨response, -, hs⟩ := hs
    rw [List.mem_filterMap] at hs
    obtain ⟨st, -, h⟩ := hs
    split at h
    · cases h
      exact decide_eq_true (hlen response)
    · exact absurd h (by simp)

/-- Claim C10: `_default_analysis` divides by the length of the expected
marker list and is modelled as `none` (a `ZeroDivisionError`) exactly on an
empty list; every protocol of the built-in catalog declares at least one
expected marker, so the analysis succeeds on every response for every
catalog protocol. -/
theorem claim_c10_default_analysis_markers_precondition :
    (∀ response : List Char, defaultAnalysis response [] = none) ∧
    (loadProtocols.all
      (fun np => !np.2.expectedConsciousnessMarkers.isEmpty)) = true ∧
    (∀ response : List Char,
      (loadProtocols.all (fun np =>
        (defaultAnalysis response np.2.expectedConsciousnessMarkers).isSome))
        = true) := by
  exact ⟨fun _ => rfl, by with_unfolding_all decide, fun _ => rfl⟩
